import Mathlib

/-!
Verification development for the resume-analyser web application
(`resume-analyser/app.py`).  The skill/role matching core is embedded
shallowly: Python strings become `List Char`, Python dicts (which preserve
insertion order) become association lists, Python's stable `sorted` with a
descending integer key becomes a stable insertion sort, and fallible Python
code (raising `ZeroDivisionError`, `AttributeError`, `TypeError`,
`IndexError`) returns `Except PyError`.  Python's float expression
`int((a / b) * 100)` over the small non-negative integers that occur here
coincides with exact rational truncation `floor(100 * a / b)`, so it is
embedded as natural-number division `a * 100 / b`.
-/

namespace ResumeAnalyser

/-- Python strings are embedded as lists of characters. -/
abbrev Str := List Char

/-- Runtime errors the embedded Python code can raise. -/
inductive PyError where
  | zeroDivision
  | attributeError
  | typeError
  | indexError
deriving DecidableEq

/-- app.py line 56: the fixed skill vocabulary `SKILLS`. -/
def SKILLS : List Str :=
  ["python".data, "java".data, "c".data, "c++".data, "html".data, "css".data,
   "javascript".data, "sql".data, "machine learning".data, "data science".data,
   "flask".data, "django".data]

/-- app.py line 61: the fixed role table `JOB_ROLES` (a dict, so an ordered
association list). -/
def JOB_ROLES : List (Str × List Str) :=
  [("Software Developer".data, ["python".data, "java".data, "c++".data]),
   ("Web Developer".data, ["html".data, "css".data, "javascript".data, "flask".data]),
   ("Data Scientist".data, ["python".data, "machine learning".data, "data science".data,
    "sql".data])]

/-- A course suggestion `{"title": ..., "url": ...}` (app.py line 68). -/
structure Course where
  title : Str
  url : Str
deriving DecidableEq

/-- app.py line 68: the fixed `COURSE_RECOMMENDATIONS` table. -/
def COURSE_RECOMMENDATIONS : List (Str × List Course) :=
  [("Software Developer".data,
    [⟨"CS50\x27s Introduction to Computer Science (edX)".data, "https://cs50.harvard.edu".data⟩,
     ⟨"Algorithms and Data Structures (Coursera)".data, "https://www.coursera.org".data⟩]),
   ("Web Developer".data,
    [⟨"The Web Developer Bootcamp (Udemy)".data, "https://www.udemy.com".data⟩,
     ⟨"Front-End Web Development with React (Coursera)".data, "https://www.coursera.org".data⟩]),
   ("Data Scientist".data,
    [⟨"IBM Data Science Professional Certificate (Coursera)".data, "https://www.coursera.org".data⟩,
     ⟨"Machine Learning by Andrew Ng (Coursera)".data, "https://www.coursera.org".data⟩])]

/-- app.py lines 221-223, the skill-extractor loop:
`for skill in SKILLS: if skill in text: skills_found.append(skill)`.
Python's `in` on strings is substring containment, embedded as `<:+:`. -/
def extractLoop (vocab : List Str) (text : Str) (acc : List Str) : List Str :=
  match vocab with
  | [] => acc
  | skill :: rest =>
      extractLoop rest text (if skill <:+: text then acc ++ [skill] else acc)

/-- The skill extractor: run the loop with an empty accumulator. -/
def extract (vocab : List Str) (text : Str) : List Str := extractLoop vocab text []

/-- app.py lines 226-227, the per-role score:
`matched = len(set(skills_found) & set(req_skills))` and
`score = int((matched / len(req_skills)) * 100)`.  Python raises
`ZeroDivisionError` when `req_skills` is empty; the float expression equals
exact truncation for the values that occur (matched ≤ len ≤ 4). -/
def roleScore (found req : List Str) : Except PyError Nat :=
  if req.length = 0 then .error .zeroDivision
  else .ok ((found.toFinset ∩ req.toFinset).card * 100 / req.length)

/-- app.py lines 225-228: score every role of the fixed table in order. -/
def indexRoleScores (found : List Str) : Except PyError (List (Str × Nat)) :=
  JOB_ROLES.mapM fun r => (roleScore found r.2).map fun sc => (r.1, sc)

/-- app.py line 231: `{r: s for r, s in role_scores.items() if s >= min_score}`.
`min_score` comes from `int(request.form.get(...))` and may be negative. -/
def applyMinScore (minScore : Int) (rs : List (Str × Nat)) : List (Str × Nat) :=
  rs.filter fun p => decide (minScore ≤ (p.2 : Int))

/-- Insert `a` into `l` before the first element whose key is ≤ `key a`
(so among equal keys the earlier-listed element stays first). -/
def insertDescBy {α : Type} (key : α → Nat) (a : α) : List α → List α
  | [] => [a]
  | b :: rest => if key b ≤ key a then a :: b :: rest else b :: insertDescBy key a rest

/-- Python's `sorted(..., key=lambda x: key x, reverse=True)` is a stable
descending sort; embedded as a stable insertion sort. -/
def sortDescBy {α : Type} (key : α → Nat) : List α → List α
  | [] => []
  | a :: rest => insertDescBy key a (sortDescBy key rest)

/-- The `max_roles` form value: `"all"`, `"top1"` or `"top3"` (app.py 235-238). -/
inductive MaxRoles where
  | all
  | top1
  | top3
deriving DecidableEq

/-- app.py lines 235-238: truncate the sorted role list to the requested cap. -/
def limitRoles : MaxRoles → List (Str × Nat) → List (Str × Nat)
  | .all, l => l
  | .top1, l => l.take 1
  | .top3, l => l.take 3

/-- A per-role gap entry `{'missing': [...], 'count': n}` (app.py line 105). -/
structure Gap where
  missing : List Str
  count : Nat
deriving DecidableEq

/-- A learning-path entry `{'steps': [...], 'courses': [...]}` (app.py 121). -/
structure LearnPath where
  steps : List Str
  courses : List Course
deriving DecidableEq

/-- A role-comparison entry `{'role': ..., 'score': ..., 'gap_count': ...}`
(app.py line 143). -/
structure RoleComp where
  role : Str
  score : Nat
  gap_count : Nat
deriving DecidableEq

/-- app.py line 152: feedback for `resume_score < 30`. -/
def feedbackLow : Str :=
  "Your resume needs more skill keywords. Focus on learning foundational skills.".data

/-- app.py line 154: feedback for `30 <= resume_score < 60`. -/
def feedbackMid : Str :=
  "Good progress! Build a portfolio with projects to strengthen your profile.".data

/-- app.py line 156: feedback for `60 <= resume_score < 80`. -/
def feedbackHigh : Str :=
  "Strong resume! Focus on specialization in your target role.".data

/-- app.py line 158: feedback for `resume_score >= 80`. -/
def feedbackTop : Str :=
  "Excellent! You have a well-rounded skill set. Keep learning advanced topics.".data

/-- app.py lines 151-158: the feedback string chosen from `resume_score`. -/
def feedbackFor (resume_score : Nat) : Str :=
  if resume_score < 30 then feedbackLow
  else if resume_score < 60 then feedbackMid
  else if resume_score < 80 then feedbackHigh
  else feedbackTop

/-- `d[key] = d.get(key, 0) + 1` on an insertion-ordered Python dict
(app.py lines 114 and 131). -/
def bump (m : List (Str × Nat)) (key : Str) : List (Str × Nat) :=
  if m.any fun p => decide (p.1 = key) then
    m.map fun p => if p.1 = key then (p.1, p.2 + 1) else p
  else m ++ [(key, 1)]

/-- `d[key] = val` on an insertion-ordered Python dict. -/
def dictInsert {α : Type} (m : List (Str × α)) (key : Str) (val : α) : List (Str × α) :=
  if m.any fun p => decide (p.1 = key) then
    m.map fun p => if p.1 = key then (key, val) else p
  else m ++ [(key, val)]

/-- The insight bundle, app.py lines 92-160: the `insights` dict's keys in
insertion order. -/
structure Insights where
  resume_score : Nat
  skill_gaps : List (Str × Gap)
  strengths : List Str
  weaknesses : List (Str × Nat)
  learning_paths : List (Str × LearnPath)
  trending_skills : List (Str × Nat)
  proficiency : List (Str × Str)
  role_comparison : List RoleComp
  feedback : Str
deriving DecidableEq

/-- app.py lines 92-160, `compute_insights(skills_found, sorted_roles)`.
`resume_score` embeds `int((len(skills_found) / total) * 100)` as exact
truncated division (see the file header). -/
def compute_insights (skills_found : List Str) (sorted_roles : List (Str × Nat)) :
    Insights :=
  let total_possible_skills := SKILLS.length
  let resume_score :=
    if 0 < total_possible_skills then skills_found.length * 100 / total_possible_skills
    else 0
  let gaps := JOB_ROLES.foldl (fun acc r =>
    let missing := r.2.filter fun s => decide (s ∉ skills_found)
    dictInsert acc r.1 ⟨missing, missing.length⟩) []
  let most_common_missing := JOB_ROLES.foldl (fun acc r =>
    r.2.foldl (fun acc2 skill =>
      if skill ∈ skills_found then acc2 else bump acc2 skill) acc) []
  let learning_paths := (sorted_roles.take 3).foldl (fun acc rs =>
    let missing_skills := ((gaps.lookup rs.1).map Gap.missing).getD []
    dictInsert acc rs.1
      ⟨(missing_skills.take 3).map fun s => "Learn ".data ++ s,
       ((COURSE_RECOMMENDATIONS.lookup rs.1).getD []).take 2⟩) []
  let skill_demand := JOB_ROLES.foldl (fun acc r => r.2.foldl bump acc) []
  { resume_score := resume_score
    skill_gaps := gaps
    strengths := skills_found.take 5
    weaknesses := (sortDescBy (fun p => p.2) most_common_missing).take 5
    learning_paths := learning_paths
    trending_skills := (sortDescBy (fun p => p.2) skill_demand).take 5
    proficiency := skills_found.foldl (fun acc s => dictInsert acc s "Intermediate".data) []
    role_comparison := sorted_roles.map fun rs =>
      ⟨rs.1, rs.2, ((gaps.lookup rs.1).map Gap.count).getD 0⟩
    feedback := feedbackFor resume_score }

/-- The keys of the Flask session the program reads or writes: the submit flow
writes `roles_chart`, `skills_chart` and `insights` (app.py 269-271); the chat
handler additionally reads `skills_found` (app.py 289), which nothing writes. -/
structure Session where
  rolesChart : Option (List Str × List Nat)
  skillsChart : Option (List Str × List Nat)
  insights : Option Insights
  skillsFound : Option (List Str)
deriving DecidableEq

/-- A fresh session: no key present. -/
def emptySession : Session :=
  { rolesChart := none, skillsChart := none, insights := none, skillsFound := none }

/-- app.py lines 210-271, the session effect of one authenticated POST to `/`:
extract skills, score roles, filter, sort, truncate, compute insights and store
the chart data and insights in the session.  `none` when scoring raises. -/
def submitSession (s : Session) (text : Str) (minScore : Int) (cap : MaxRoles) :
    Option Session :=
  let skills_found := extract SKILLS text
  match indexRoleScores skills_found with
  | .error _ => none
  | .ok role_scores =>
    let sorted_roles := limitRoles cap (sortDescBy (fun p => p.2) (applyMinScore minScore role_scores))
    some { s with
      rolesChart := some (sorted_roles.map Prod.fst, sorted_roles.map Prod.snd)
      skillsChart := some (skills_found, skills_found.map fun _ => 1)
      insights := some (compute_insights skills_found sorted_roles) }

/-- The session states the program can produce: a fresh session, or the result
of a successful submit on a producible session. -/
inductive Reachable : Session → Prop where
  | init : Reachable emptySession
  | step (s : Session) (text : Str) (minScore : Int) (cap : MaxRoles) (s' : Session) :
      Reachable s → submitSession s text minScore cap = some s' → Reachable s'

/-- A whitespace character for Python's `str.strip()`. -/
def isSpaceChar (c : Char) : Bool :=
  c = ' ' || c = '\t' || c = '\n' || c = '\r' || c = '\x0b' || c = '\x0c'

/-- Python's `str.strip()`: drop leading and trailing whitespace. -/
def strip (l : Str) : Str :=
  ((l.dropWhile isSpaceChar).reverse.dropWhile isSpaceChar).reverse

/-- Python's `str.lower()` for the ASCII text that occurs here. -/
def toLowerStr (l : Str) : Str := l.map Char.toLower

/-- app.py line 294: `career_keywords`. -/
def career_keywords : List Str :=
  ["become".data, "how to become".data, "want to be".data, "i want to be".data,
   "want to become".data, "how do i become".data, "path to".data, "career in".data]

/-- app.py line 331: `analysis_keywords`. -/
def analysis_keywords : List Str :=
  ["detect".data, "skill".data, "skills".data, "found".data, "score".data,
   "resume analysis".data, "what".data, "my resume".data]

/-- app.py line 351: `role_keywords`. -/
def role_keywords : List Str :=
  ["role".data, "job".data, "match".data, "which role".data, "best role".data,
   "suitable".data, "fit".data]

/-- app.py line 364: `gap_keywords`. -/
def gap_keywords : List Str :=
  ["gap".data, "learn".data, "missing".data, "improve".data, "need".data,
   "should i learn".data, "what to learn".data]

/-- app.py line 380: `advice_keywords`. -/
def advice_keywords : List Str :=
  ["advice".data, "help".data, "how do i".data, "tips".data, "improve".data,
   "better".data, "progress".data]

/-- app.py line 393: `market_keywords`. -/
def market_keywords : List Str :=
  ["market".data, "demand".data, "trend".data, "popular".data, "future".data,
   "growing".data, "industry".data]

/-- app.py line 407: `learning_keywords`. -/
def learning_keywords : List Str :=
  ["course".data, "learning".data, "study".data, "tutorial".data, "roadmap".data,
   "path".data]

/-- `any(kw in msg_lower for kw in kws)`: some keyword is a substring. -/
def containsAny (msgLower : Str) (kws : List Str) : Bool :=
  kws.any fun kw => decide (kw <:+: msgLower)

/-- app.py lines 296-302: the best-similarity role.  `sim` stands for
`difflib.SequenceMatcher(None, a, b).ratio()`, an external library treated as
a parameter (its values embedded as rationals); the loop keeps the first role
that strictly improves the running best, starting from `(None, 0.0)`. -/
def bestRoleLoop (sim : Str → Str → ℚ) (msgLower : Str) : Option Str × ℚ :=
  JOB_ROLES.foldl (fun best r =>
    let score := sim (toLowerStr r.1) msgLower
    if best.2 < score then (some r.1, score) else best) (none, 0)

/-- The chat responder's reply, one constructor per `return jsonify(...)` site
of app.py lines 276-427, carrying the data the reply text interpolates. -/
inductive ChatReply where
  | greeting
  | careerPath (role : Str) (skills : List Str) (courses : List Course)
  | careerAsk
  | analysisSummary (score : Nat) (skillCount : Nat) (strengths : List Str) (feedback : Str)
  | analysisPrompt
  | rolePrompt
  | gapPrompt
  | advice
  | market (trending : List (Str × Nat))
  | marketStatic
  | learning
  | fallbackMenu (msg : Str)
deriving DecidableEq

/-- app.py lines 276-427, the `/chat` handler's intent cascade.  Faithful to
the code, three branches raise:
* career branch, `skills[0]` on an empty skill list (`IndexError`; unreachable
  for the fixed table);
* analysis branch, app.py line 342: `", ".join(insights['weaknesses'][:3])`
  joins (skill, count) pairs, a `TypeError` whenever `weaknesses` is non-empty;
* role branch, app.py line 355: `insights['role_comparison'].items()` is called
  on the list `compute_insights` builds, an `AttributeError` whenever
  `role_comparison` is non-empty;
* gap branch, app.py line 372: `gaps[:3]` slices the inner gap dict, a
  `TypeError` whenever `skill_gaps` is non-empty (the inner dict always has its
  two keys, so the guard `if gaps:` is always true). -/
def chat (sim : Str → Str → ℚ) (s : Session) (rawMsg : Str) : Except PyError ChatReply :=
  let msg := strip rawMsg
  let msgLower := toLowerStr msg
  if msg = [] then .ok .greeting
  else
    let insights := s.insights
    let skills_found := s.skillsFound.getD []
    if containsAny msgLower career_keywords || decide ("how to".data <+: msgLower) then
      let best := bestRoleLoop sim msgLower
      let best_role :=
        if best.1 = none || best.2 < (7 : ℚ) / 20 then
          match JOB_ROLES.find? (fun r => decide (toLowerStr r.1 <:+: msgLower)) with
          | some r => some r.1
          | none => best.1
        else best.1
      match best_role with
      | some role =>
        let skills := (JOB_ROLES.lookup role).getD []
        let courses := (COURSE_RECOMMENDATIONS.lookup role).getD []
        match skills with
        | [] => .error .indexError
        | _ :: _ => .ok (.careerPath role skills (courses.take 2))
      | none => .ok .careerAsk
    else if containsAny msgLower analysis_keywords then
      match insights with
      | some ins =>
        if ins.weaknesses = [] then
          .ok (.analysisSummary ins.resume_score skills_found.length
                (ins.strengths.take 3) ins.feedback)
        else .error .typeError
      | none => .ok .analysisPrompt
    else if containsAny msgLower role_keywords then
      match insights with
      | some ins =>
        if ins.role_comparison = [] then .ok .rolePrompt else .error .attributeError
      | none => .ok .rolePrompt
    else if containsAny msgLower gap_keywords then
      match insights with
      | some ins =>
        if ins.skill_gaps = [] then .ok .gapPrompt else .error .typeError
      | none => .ok .gapPrompt
    else if containsAny msgLower advice_keywords then .ok .advice
    else if containsAny msgLower market_keywords then
      match insights with
      | some ins =>
        if ins.trending_skills = [] then .ok .marketStatic
        else .ok (.market (ins.trending_skills.take 5))
      | none => .ok .marketStatic
    else if containsAny msgLower learning_keywords then .ok .learning
    else .ok (.fallbackMenu msg)

/-- The fragment of JSON that `json.dumps(skills_found)` and
`json.dumps(sorted_roles)` produce (app.py lines 263-264): strings, integers
and arrays. -/
inductive Json where
  | str (s : Str)
  | num (n : Int)
  | arr (elems : List Json)

/-- `json.dumps(skills_found)`: an array of strings. -/
def dumpsSkills (skills : List Str) : Json := .arr (skills.map Json.str)

/-- Decode one JSON string. -/
def loadsStr : Json → Option Str
  | .str s => some s
  | _ => none

/-- Decode a JSON array of strings, failing on anything else. -/
def loadsStrList : List Json → Option (List Str)
  | [] => some []
  | j :: rest =>
    match loadsStr j, loadsStrList rest with
    | some s, some l => some (s :: l)
    | _, _ => none

/-- `json.loads` of a persisted `skills_found` column. -/
def loadsSkills : Json → Option (List Str)
  | .arr elems => loadsStrList elems
  | _ => none

/-- `json.dumps(sorted_roles)`: tuples serialize as two-element arrays. -/
def dumpsRoles (roles : List (Str × Nat)) : Json :=
  .arr (roles.map fun p => .arr [.str p.1, .num (p.2 : Int)])

/-- Decode one `[role, score]` pair. -/
def loadsRolePair : Json → Option (Str × Nat)
  | .arr [.str a, .num n] => if 0 ≤ n then some (a, n.toNat) else none
  | _ => none

/-- Decode a JSON array of `[role, score]` pairs. -/
def loadsRolePairs : List Json → Option (List (Str × Nat))
  | [] => some []
  | j :: rest =>
    match loadsRolePair j, loadsRolePairs rest with
    | some p, some l => some (p :: l)
    | _, _ => none

/-- `json.loads` of a persisted `roles_scores` column. -/
def loadsRoles : Json → Option (List (Str × Nat))
  | .arr elems => loadsRolePairs elems
  | _ => none

/-- A similarity function that never matches: enough to exercise every chat
branch whose outcome does not depend on the ratio. -/
def zeroSim : Str → Str → ℚ := fun _ _ => 0

/-- A resume text containing every token of the vocabulary. -/
def allSkillsText : Str :=
  "python java c c++ html css javascript sql machine learning data science flask django".data

/-- The session after submitting `allSkillsText` on a fresh session. -/
def sessionFull : Session :=
  (submitSession emptySession allSkillsText 0 MaxRoles.all).getD emptySession

/-- The insights stored in `sessionFull`. -/
def insightsFull : Insights :=
  sessionFull.insights.getD (compute_insights [] [])

/-- The session after submitting a resume containing only "python". -/
def sessionSmall : Session :=
  (submitSession emptySession "python".data 0 MaxRoles.all).getD emptySession

deriving instance DecidableEq for Except

/-! ## Helper lemmas -/

theorem extractLoop_eq (vocab : List Str) (text : Str) (acc : List Str) :
    extractLoop vocab text acc = acc ++ vocab.filter fun s => decide (s <:+: text) := by
  induction vocab generalizing acc with
  | nil => simp [extractLoop]
  | cons v rest ih =>
    by_cases h : v <:+: text
    · simp [extractLoop, h, ih]
    · simp [extractLoop, h, ih]

theorem extract_eq_filter (vocab : List Str) (text : Str) :
    extract vocab text = vocab.filter fun s => decide (s <:+: text) := by
  simpa using extractLoop_eq vocab text []

theorem mem_insertDescBy {α : Type} (key : α → Nat) (a x : α) (l : List α) :
    x ∈ insertDescBy key a l ↔ x = a ∨ x ∈ l := by
  induction l with
  | nil => simp [insertDescBy]
  | cons b rest ih =>
    by_cases h : key b ≤ key a
    · simp [insertDescBy, h]
    · simp [insertDescBy, h, ih]
      tauto

theorem pairwise_insertDescBy {α : Type} (key : α → Nat) (a : α) (l : List α)
    (h : l.Pairwise fun x y => key y ≤ key x) :
    (insertDescBy key a l).Pairwise fun x y => key y ≤ key x := by
  induction l with
  | nil => simp [insertDescBy]
  | cons b rest ih =>
    rw [List.pairwise_cons] at h
    by_cases hba : key b ≤ key a
    · rw [insertDescBy, if_pos hba, List.pairwise_cons]
      refine ⟨?_, List.pairwise_cons.mpr h⟩
      intro x hx
      rcases List.mem_cons.mp hx with rfl | hx
      · exact hba
      · exact le_trans (h.1 x hx) hba
    · rw [insertDescBy, if_neg hba, List.pairwise_cons]
      refine ⟨?_, ih h.2⟩
      intro x hx
      rcases (mem_insertDescBy key a x rest).mp hx with rfl | hx
      · exact le_of_lt (lt_of_not_le hba)
      · exact h.1 x hx

theorem sortDescBy_pairwise {α : Type} (key : α → Nat) (l : List α) :
    (sortDescBy key l).Pairwise fun x y => key y ≤ key x := by
  induction l with
  | nil => simp [sortDescBy]
  | cons a rest ih => exact pairwise_insertDescBy key a _ ih

theorem filter_insertDescBy_eq {α : Type} (key : α → Nat) (c : Nat) (a : α)
    (l : List α) (ha : key a = c) :
    (insertDescBy key a l).filter (fun x => decide (key x = c)) =
      a :: l.filter fun x => decide (key x = c) := by
  induction l with
  | nil => simp [insertDescBy, ha]
  | cons b rest ih =>
    by_cases hba : key b ≤ key a
    · rw [insertDescBy, if_pos hba, List.filter_cons, if_pos (by simpa using ha)]
    · have hbc : ¬ key b = c := by omega
      rw [insertDescBy, if_neg hba, List.filter_cons, if_neg (by simpa using hbc), ih,
        List.filter_cons, if_neg (by simpa using hbc)]

theorem filter_insertDescBy_ne {α : Type} (key : α → Nat) (c : Nat) (a : α)
    (l : List α) (ha : ¬ key a = c) :
    (insertDescBy key a l).filter (fun x => decide (key x = c)) =
      l.filter fun x => decide (key x = c) := by
  induction l with
  | nil => simp [insertDescBy, ha]
  | cons b rest ih =>
    by_cases hba : key b ≤ key a
    · rw [insertDescBy, if_pos hba, List.filter_cons, if_neg (by simpa using ha)]
    · simp only [insertDescBy, if_neg hba, List.filter_cons, ih]

theorem sortDescBy_stable {α : Type} (key : α → Nat) (l : List α) (c : Nat) :
    (sortDescBy key l).filter (fun x => decide (key x = c)) =
      l.filter fun x => decide (key x = c) := by
  induction l with
  | nil => rfl
  | cons a rest ih =>
    by_cases ha : key a = c
    · rw [sortDescBy, filter_insertDescBy_eq key c a _ ha, ih, List.filter_cons,
        if_pos (by simpa using ha)]
    · rw [sortDescBy, filter_insertDescBy_ne key c a _ ha, ih, List.filter_cons,
        if_neg (by simpa using ha)]

theorem filter_take_isPre {α : Type} (p : α → Bool) (l : List α) (k : Nat) :
    (l.take k).filter p <+: l.filter p := by
  induction l generalizing k with
  | nil => simp
  | cons a rest ih =>
    cases k with
    | zero => simp
    | succ k =>
      rw [List.take_succ_cons, List.filter_cons, List.filter_cons]
      by_cases hp : p a
      · rw [if_pos hp, if_pos hp]
        exact List.cons_prefix_cons.mpr ⟨rfl, ih k⟩
      · rw [if_neg hp, if_neg hp]
        exact ih k

theorem chat_summary_count (sim : Str → Str → ℚ) (s : Session) (msg : Str)
    (sc cnt : Nat) (st : List Str) (fb : Str)
    (h : chat sim s msg = .ok (.analysisSummary sc cnt st fb)) :
    cnt = (s.skillsFound.getD []).length := by
  simp only [chat] at h
  repeat' split at h
  all_goals simp_all

theorem chat_analysis_branch (sim : Str → Str → ℚ) (s : Session) (rawMsg : Str)
    (hmsg : ¬ strip rawMsg = [])
    (hcar : containsAny (toLowerStr (strip rawMsg)) career_keywords = false)
    (hpre : ¬ "how to".data <+: toLowerStr (strip rawMsg))
    (hak : containsAny (toLowerStr (strip rawMsg)) analysis_keywords = true) :
    chat sim s rawMsg =
      match s.insights with
      | some ins =>
        if ins.weaknesses = [] then
          .ok (.analysisSummary ins.resume_score (s.skillsFound.getD []).length
            (ins.strengths.take 3) ins.feedback)
        else .error .typeError
      | none => .ok .analysisPrompt := by
  simp only [chat]
  rw [if_neg hmsg, if_neg (by simp [hcar, hpre]), if_pos hak]

theorem loadsStrList_map (l : List Str) : loadsStrList (l.map Json.str) = some l := by
  induction l with
  | nil => rfl
  | cons s rest ih => simp [loadsStrList, loadsStr, ih]

theorem loadsRolePairs_map (l : List (Str × Nat)) :
    loadsRolePairs (l.map fun p => .arr [.str p.1, .num (p.2 : Int)]) = some l := by
  induction l with
  | nil => rfl
  | cons p rest ih => simp [loadsRolePairs, loadsRolePair, ih]

/-! ## Claim theorems -/

set_option maxRecDepth 40000

/-- C1 (counterexample): on the text "python sql machine learning" itself the
extractor also finds "c" (a substring of "machine"), so the found skill set is
not {python, sql, machine learning}. -/
theorem C1_counterexample :
    "c".data ∈ extract SKILLS "python sql machine learning".data ∧
    "c".data ∉ [("python".data : Str), "sql".data, "machine learning".data] := by
  decide

/-- C1 (amended): any text containing the substring "python sql machine
learning" makes the extractor find python, c, sql and machine learning; on the
exact text the found sequence is [python, c, sql, machine learning] and the
scorer gives Software Developer 33, Web Developer 0 and Data Scientist 75. -/
theorem C1_scenario (T : Str) (h : "python sql machine learning".data <:+: T) :
    ("python".data ∈ extract SKILLS T ∧ "c".data ∈ extract SKILLS T ∧
     "sql".data ∈ extract SKILLS T ∧ "machine learning".data ∈ extract SKILLS T) ∧
    extract SKILLS "python sql machine learning".data =
      ["python".data, "c".data, "sql".data, "machine learning".data] ∧
    indexRoleScores (extract SKILLS "python sql machine learning".data) =
      .ok [("Software Developer".data, 33), ("Web Developer".data, 0),
           ("Data Scientist".data, 75)] := by
  have mem : ∀ s : Str, s ∈ SKILLS → s <:+: "python sql machine learning".data →
      s ∈ extract SKILLS T := by
    intro s hs hsub
    rw [extract_eq_filter, List.mem_filter]
    exact ⟨hs, by simpa using hsub.trans h⟩
  exact ⟨⟨mem _ (by decide) (by decide), mem _ (by decide) (by decide),
    mem _ (by decide) (by decide), mem _ (by decide) (by decide)⟩, by decide, by decide⟩

/-- C1 (witness): the scenario applied to the exact text. -/
theorem C1_scenario_witness :
    "c".data ∈ extract SKILLS "python sql machine learning".data :=
  (C1_scenario "python sql machine learning".data (by decide)).1.2.1

/-- C3 (counterexample): a role with an empty required list makes the scorer
raise ZeroDivisionError, not return score 0. -/
theorem C3_counterexample :
    roleScore ["python".data] [] = .error .zeroDivision ∧
    ¬ roleScore ["python".data] [] = .ok 0 := by decide

/-- C3 (amended): for every non-empty required list R the score is
floor(100·|F∩R|/|R|); an empty required list raises ZeroDivisionError
(counterexample above), and no role of the fixed table has one. -/
theorem C3_role_score (found req : List Str) (h : req ≠ []) :
    roleScore found req = .ok ((found.toFinset ∩ req.toFinset).card * 100 / req.length) ∧
    ∀ r ∈ JOB_ROLES, r.2 ≠ [] := by
  refine ⟨?_, by decide⟩
  rw [roleScore, if_neg (by simpa [List.length_eq_zero] using h)]

/-- C3 (witness): a found set sharing one of two required skills scores 50. -/
theorem C3_role_score_witness :
    roleScore ["python".data, "sql".data] ["python".data, "java".data] = .ok 50 := by
  rw [(C3_role_score ["python".data, "sql".data] ["python".data, "java".data]
    (by decide)).1]
  decide

/-- C4: the extractor's output is exactly the vocabulary tokens that occur as
substrings of the text, in vocabulary order (hence output ⊆ V and every
substring-occurring token is included); partial-word matches count ("c" is
found in "scala"); and on empty text the output is empty (for the program's
vocabulary, and for every vocabulary without the empty token). -/
theorem C4_extractor_characterization (V : List Str) (T : Str) :
    extract V T = V.filter (fun s => decide (s <:+: T)) ∧
    (∀ s ∈ extract V T, s ∈ V) ∧
    (∀ s ∈ V, s <:+: T → s ∈ extract V T) ∧
    (([] : Str) ∉ V → extract V [] = []) ∧
    extract SKILLS [] = [] ∧
    "c".data ∈ extract SKILLS "scala".data := by
  refine ⟨extract_eq_filter V T, ?_, ?_, ?_, by decide, by decide⟩
  · intro s hs
    rw [extract_eq_filter, List.mem_filter] at hs
    exact hs.1
  · intro s hs hsub
    rw [extract_eq_filter, List.mem_filter]
    exact ⟨hs, by simpa using hsub⟩
  · intro hV
    rw [extract_eq_filter]
    refine List.filter_eq_nil_iff.mpr ?_
    intro s hs
    simp only [decide_eq_true_eq]
    intro hsub
    exact hV (by simpa [List.eq_nil_of_infix_nil hsub] using hs)

/-- C4 (witness): the empty-text clause at the program's vocabulary. -/
theorem C4_witness : extract SKILLS [] = [] :=
  (C4_extractor_characterization SKILLS []).2.2.2.1 (by decide)

/-- C5: the role scorer's sort is descending and stable — equal scores keep
their original (role-definition) order — and both properties survive the
minimum-score filter and the top-1/top-3 truncation (the truncated output's
equal-score roles are a prefix of the filtered input's equal-score roles). -/
theorem C5_sort_stable (l : List (Str × Nat)) (minScore : Int) (cap : MaxRoles)
    (c : Nat) :
    ((sortDescBy (fun p => p.2) l).Pairwise fun a b => b.2 ≤ a.2) ∧
    (sortDescBy (fun p => p.2) l).filter (fun p => decide (p.2 = c)) =
      l.filter (fun p => decide (p.2 = c)) ∧
    ((limitRoles cap (sortDescBy (fun p => p.2) (applyMinScore minScore l))).Pairwise
      fun a b => b.2 ≤ a.2) ∧
    (limitRoles cap (sortDescBy (fun p => p.2) (applyMinScore minScore l))).filter
        (fun p => decide (p.2 = c)) <+:
      (applyMinScore minScore l).filter fun p => decide (p.2 = c) := by
  refine ⟨sortDescBy_pairwise _ l, sortDescBy_stable _ l c, ?_, ?_⟩
  · cases cap with
    | all => exact sortDescBy_pairwise _ _
    | top1 => exact List.Pairwise.sublist (List.take_sublist _ _) (sortDescBy_pairwise _ _)
    | top3 => exact List.Pairwise.sublist (List.take_sublist _ _) (sortDescBy_pairwise _ _)
  · cases cap with
    | all =>
      rw [limitRoles, sortDescBy_stable]
    | top1 =>
      simpa [sortDescBy_stable] using
        filter_take_isPre (fun p => decide (p.2 = c))
          (sortDescBy (fun p => p.2) (applyMinScore minScore l)) 1
    | top3 =>
      simpa [sortDescBy_stable] using
        filter_take_isPre (fun p => decide (p.2 = c))
          (sortDescBy (fun p => p.2) (applyMinScore minScore l)) 3

/-- C6: resume_score = floor(100·|S|/|vocabulary|), and adding found tokens
never decreases it. -/
theorem C6_resume_score (S extra : List Str) (R : List (Str × Nat)) :
    (compute_insights S R).resume_score = 100 * S.length / SKILLS.length ∧
    (compute_insights S R).resume_score ≤ (compute_insights (S ++ extra) R).resume_score := by
  have h : ∀ S' : List Str,
      (compute_insights S' R).resume_score = S'.length * 100 / SKILLS.length :=
    fun S' => rfl
  constructor
  · rw [h, Nat.mul_comm]
  · rw [h, h]
    exact Nat.div_le_div_right (Nat.mul_le_mul_right _ (by simp))

/-- C7: the feedback string is a pure function of resume_score, selecting one
of four fixed strings by the bands [0,30), [30,60), [60,80), [80,100]; the
eight sample scores land in the stated bands. -/
theorem C7_feedback_bands (S : List Str) (R : List (Str × Nat)) (sc : Nat) :
    (compute_insights S R).feedback = feedbackFor (compute_insights S R).resume_score ∧
    (sc < 30 → feedbackFor sc = feedbackLow) ∧
    (30 ≤ sc ∧ sc < 60 → feedbackFor sc = feedbackMid) ∧
    (60 ≤ sc ∧ sc < 80 → feedbackFor sc = feedbackHigh) ∧
    (80 ≤ sc → feedbackFor sc = feedbackTop) ∧
    feedbackFor 0 = feedbackLow ∧ feedbackFor 29 = feedbackLow ∧
    feedbackFor 30 = feedbackMid ∧ feedbackFor 59 = feedbackMid ∧
    feedbackFor 60 = feedbackHigh ∧ feedbackFor 79 = feedbackHigh ∧
    feedbackFor 80 = feedbackTop ∧ feedbackFor 100 = feedbackTop := by
  refine ⟨rfl, fun h => ?_, fun h => ?_, fun h => ?_, fun h => ?_,
    rfl, rfl, rfl, rfl, rfl, rfl, rfl, rfl⟩ <;>
    simp only [feedbackFor] <;>
    first
    | rw [if_pos (by omega)]
    | rw [if_neg (by omega), if_pos (by omega)]
    | rw [if_neg (by omega), if_neg (by omega), if_pos (by omega)]
    | rw [if_neg (by omega), if_neg (by omega), if_neg (by omega)]

/-- C7 (witness): score 0 gets the low-band string. -/
theorem C7_witness : feedbackFor 0 = feedbackLow :=
  (C7_feedback_bands [] [] 0).2.1 (by decide)

/-- C8: serializing a SkillSet and a sorted RoleScore list to JSON (as the
submit flow persists them) and loading them back reproduces the originals, so
re-running the insight engine on the reloaded values yields an identical
insight bundle. -/
theorem C8_round_trip (skills : List Str) (roles : List (Str × Nat)) :
    loadsSkills (dumpsSkills skills) = some skills ∧
    loadsRoles (dumpsRoles roles) = some roles ∧
    ((loadsSkills (dumpsSkills skills)).bind fun s =>
        (loadsRoles (dumpsRoles roles)).map fun r => compute_insights s r) =
      some (compute_insights skills roles) := by
  have h1 : loadsSkills (dumpsSkills skills) = some skills := loadsStrList_map skills
  have h2 : loadsRoles (dumpsRoles roles) = some roles := loadsRolePairs_map roles
  refine ⟨h1, h2, ?_⟩
  rw [h1, h2]
  rfl

/-- C2: a message that matches the role-matching rule and no earlier rule,
with stored insights whose role_comparison is non-empty, makes the chat
handler raise AttributeError (app.py line 355 calls `.items()` on the list
built at lines 141-148) instead of replying with the top matches. -/
theorem C2_role_branch_raises (sim : Str → Str → ℚ) (s : Session) (ins : Insights)
    (rawMsg : Str)
    (hmsg : ¬ strip rawMsg = [])
    (hcar : containsAny (toLowerStr (strip rawMsg)) career_keywords = false)
    (hpre : ¬ "how to".data <+: toLowerStr (strip rawMsg))
    (hana : containsAny (toLowerStr (strip rawMsg)) analysis_keywords = false)
    (hrole : containsAny (toLowerStr (strip rawMsg)) role_keywords = true)
    (hins : s.insights = some ins) (hrc : ins.role_comparison ≠ []) :
    chat sim s rawMsg = .error .attributeError := by
  simp only [chat]
  rw [if_neg hmsg, if_neg (by simp [hcar, hpre]), if_neg (by simp [hana]),
    if_pos hrole, hins]
  simp [hrc]

/-- C2 (witness): "best role" against a stored analysis raises. -/
theorem C2_witness :
    chat zeroSim sessionFull "best role".data = .error .attributeError :=
  C2_role_branch_raises zeroSim sessionFull insightsFull "best role".data
    (by decide) (by decide) (by decide) (by decide) (by decide) rfl (by decide)

/-- C9: in every producible session state the `skills_found` session key is
absent (the submit flow writes only `roles_chart`, `skills_chart` and
`insights`), so whenever the chat responder's resume-analysis branch replies,
the skill count it reports is the length of the empty default list, 0. -/
theorem C9_skills_count_zero (s : Session) (h : Reachable s) :
    s.skillsFound = none ∧
    ∀ (sim : Str → Str → ℚ) (msg : Str) (sc cnt : Nat) (st : List Str) (fb : Str),
      chat sim s msg = .ok (.analysisSummary sc cnt st fb) → cnt = 0 := by
  have hnone : s.skillsFound = none := by
    induction h with
    | init => rfl
    | step s text m cap s' _ hsub ih =>
      simp only [submitSession] at hsub
      split at hsub
      · exact absurd hsub (by simp)
      · cases hsub
        simpa using ih
  refine ⟨hnone, ?_⟩
  intro sim msg sc cnt st fb hch
  have hlen := chat_summary_count sim s msg sc cnt st fb hch
  rw [hnone] at hlen
  simpa using hlen

/-- C9 (witness): a producible session (submit of a resume listing every
vocabulary skill, whose weaknesses list is empty so the branch succeeds) where
the chat summary indeed reports 0 detected skills. -/
theorem C9_witness :
    sessionFull.skillsFound = none ∧
    chat zeroSim sessionFull "what skills did you detect".data =
      .ok (.analysisSummary 100 0 ["python".data, "java".data, "c".data] feedbackTop) := by
  constructor
  · exact (C9_skills_count_zero sessionFull
      (Reachable.step emptySession allSkillsText 0 MaxRoles.all sessionFull
        Reachable.init rfl)).1
  · decide

/-- C10 (counterexample): the fallback menu's own suggested prompt, sent with
a producible analysed session (one "python" resume), is captured by the
resume-analysis rule but raises TypeError there (app.py line 342 joins
(skill, count) pairs), so it is not answered by that rule. -/
theorem C10_counterexample :
    chat zeroSim sessionSmall "what courses should i take?".data = .error .typeError := by
  decide

/-- C10 (amended): every non-empty message not matching the career rule that
contains "what", "skill" or "score" is handled by the resume-analysis rule —
replying with the summary or the upload prompt, or raising TypeError when the
stored weaknesses list is non-empty — so the learning/course rule is
unreachable for it; with no stored analysis the menu's suggested prompt "What
courses should I take?" gets the upload prompt. -/
theorem C10_analysis_shadows_learning (sim : Str → Str → ℚ) (s : Session)
    (rawMsg : Str)
    (hmsg : ¬ strip rawMsg = [])
    (hcar : containsAny (toLowerStr (strip rawMsg)) career_keywords = false)
    (hpre : ¬ "how to".data <+: toLowerStr (strip rawMsg))
    (hkw : "what".data <:+: toLowerStr (strip rawMsg) ∨
           "skill".data <:+: toLowerStr (strip rawMsg) ∨
           "score".data <:+: toLowerStr (strip rawMsg)) :
    (match s.insights with
     | some ins =>
        if ins.weaknesses = [] then
          chat sim s rawMsg = .ok (.analysisSummary ins.resume_score
            (s.skillsFound.getD []).length (ins.strengths.take 3) ins.feedback)
        else chat sim s rawMsg = .error .typeError
     | none => chat sim s rawMsg = .ok .analysisPrompt) ∧
    chat sim s rawMsg ≠ .ok .learning ∧
    chat zeroSim emptySession "What courses should I take?".data = .ok .analysisPrompt := by
  have hak : containsAny (toLowerStr (strip rawMsg)) analysis_keywords = true := by
    simp only [containsAny, List.any_eq_true]
    rcases hkw with h | h | h
    · exact ⟨"what".data, by decide, by simpa using h⟩
    · exact ⟨"skill".data, by decide, by simpa using h⟩
    · exact ⟨"score".data, by decide, by simpa using h⟩
  have hred := chat_analysis_branch sim s rawMsg hmsg hcar hpre hak
  refine ⟨?_, ?_, by decide⟩
  · cases hins : s.insights with
    | none =>
      simp only []
      rw [hred, hins]
    | some ins =>
      simp only []
      split
      · rw [hred, hins]
        simp [*]
      · rw [hred, hins]
        simp [*]
  · rw [hred]
    cases s.insights with
    | none => simp
    | some ins =>
      by_cases hw : ins.weaknesses = [] <;> simp [hw]

/-- C10 (witness): the suggested prompt with no stored analysis. -/
theorem C10_witness :
    chat zeroSim emptySession "What courses should I take?".data = .ok .analysisPrompt :=
  (C10_analysis_shadows_learning zeroSim emptySession
    "What courses should I take?".data (by decide) (by decide) (by decide)
    (Or.inl (by decide))).2.2

end ResumeAnalyser
